import Mathlib

/-
Verification of the painting/visibility-culling layer (src/painter.c) of the
stellarium-web-engine repository.

Modelling conventions:
- Machine doubles are modelled by exact rationals (ℚ).  The C code's geometric
  predicates (dot products, comparisons) are rational; transcendental values
  (angles, square roots) are handled either by exact cosine-space translation
  (cos is strictly antitone on [0, π], so cos (max sep) = min (cos sep) and
  `max_sep ≤ π/2 ↔ cos (max_sep) ≥ 0` for separations in [0, π]) or by
  abstract parameters for external library routines.
- Functions called by painter.c but defined outside src/ (vec.h math utilities,
  the ERFA angular-separation routine, convert_frame, the projection primitive,
  line_mesh tessellation, healpix uv-map utilities) are external collaborators:
  they are modelled either as abstract fields of the painter/projection state,
  or, when the natural-language spec pins their definition down, as concrete
  definitions marked "Modelled from the spec".
-/

/-- 2D vector of exact rationals (models double[2]). -/
structure Vec2 where
  x : ℚ
  y : ℚ
  deriving DecidableEq

/-- 3D vector of exact rationals (models double[3]). -/
structure Vec3 where
  x : ℚ
  y : ℚ
  z : ℚ
  deriving DecidableEq

/-- 4D vector of exact rationals (models double[4]). -/
structure Vec4 where
  x : ℚ
  y : ℚ
  z : ℚ
  w : ℚ
  deriving DecidableEq

/-- Dot product of 3D vectors (vec3_dot from the engine's vector utilities). -/
def vec3_dot (a b : Vec3) : ℚ := a.x * b.x + a.y * b.y + a.z * b.z

/-- Cross product of 3D vectors (vec3_cross). -/
def vec3_cross (a b : Vec3) : Vec3 :=
  ⟨a.y * b.z - a.z * b.y, a.z * b.x - a.x * b.z, a.x * b.y - a.y * b.x⟩

/-- Negation of a 3D vector (vec3_mul with scalar -1). -/
def vec3_neg (a : Vec3) : Vec3 := ⟨-a.x, -a.y, -a.z⟩

/-- Dot product of 4D vectors. -/
def vec4_dot (a b : Vec4) : ℚ := a.x * b.x + a.y * b.y + a.z * b.z + a.w * b.w

/-- Linear interpolation of 4D vectors (vec4_mix): (1-t)·a + t·b. -/
def vec4_mix (a b : Vec4) (t : ℚ) : Vec4 :=
  ⟨(1 - t) * a.x + t * b.x, (1 - t) * a.y + t * b.y,
   (1 - t) * a.z + t * b.z, (1 - t) * a.w + t * b.w⟩

/-- First three components of a 4D vector. -/
def vec4_xyz (v : Vec4) : Vec3 := ⟨v.x, v.y, v.z⟩

/-- Column-major 4x4 matrix (models double[4][4] as used by the painter's
transform: m[i] is the i-th column, m[3] the translation). -/
structure Mat4 where
  c0 : Vec4
  c1 : Vec4
  c2 : Vec4
  c3 : Vec4
  deriving DecidableEq

/-- Matrix-vector product (mat4_mul_vec4, column-major). -/
def mat4_mul_vec4 (m : Mat4) (v : Vec4) : Vec4 :=
  ⟨v.x * m.c0.x + v.y * m.c1.x + v.z * m.c2.x + v.w * m.c3.x,
   v.x * m.c0.y + v.y * m.c1.y + v.z * m.c2.y + v.w * m.c3.y,
   v.x * m.c0.z + v.y * m.c1.z + v.z * m.c2.z + v.w * m.c3.z,
   v.x * m.c0.w + v.y * m.c1.w + v.z * m.c2.w + v.w * m.c3.w⟩

/-- Direction transform (mat4_mul_vec3_dir): apply the matrix with w = 0. -/
def mat4_mul_vec3_dir (m : Mat4) (v : Vec3) : Vec3 :=
  vec4_xyz (mat4_mul_vec4 m ⟨v.x, v.y, v.z, 0⟩)

/-- Identity matrix. -/
def mat4_id : Mat4 :=
  ⟨⟨1, 0, 0, 0⟩, ⟨0, 1, 0, 0⟩, ⟨0, 0, 1, 0⟩, ⟨0, 0, 0, 1⟩⟩

/-- The six canonical clip-plane equations of is_clipped (painter.c:27-31). -/
def clip_planes : List Vec4 :=
  [⟨-1, 0, 0, -1⟩, ⟨1, 0, 0, -1⟩,
   ⟨0, -1, 0, -1⟩, ⟨0, 1, 0, -1⟩,
   ⟨0, 0, -1, -1⟩, ⟨0, 0, 1, -1⟩]

/-- Frustum test on homogeneous clip-space points (is_clipped, painter.c:24-46):
the shape is fully clipped iff for some plane every point has a strictly
positive plane-dot-point value (the C loop breaks at the first point with
value ≤ 0 and reports clipped when no point broke the loop). -/
def is_clipped (pos : List Vec4) : Bool :=
  clip_planes.any fun P => pos.all fun q => decide (0 < vec4_dot P q)

/-- Circle/rectangle intersection test (intersect_circle_rect,
painter.c:49-67); rect is (x, y, width, height). -/
def intersect_circle_rect (rect : Vec4) (c : Vec2) (r : ℚ) : Bool :=
  let cdx := |c.x - (rect.x + rect.z / 2)|
  let cdy := |c.y - (rect.y + rect.w / 2)|
  if cdx > rect.z / 2 + r then false
  else if cdy > rect.w / 2 + r then false
  else if cdx ≤ rect.z / 2 then true
  else if cdy ≤ rect.w / 2 then true
  else decide ((cdx - rect.z / 2) ^ 2 + (cdy - rect.w / 2) ^ 2 ≤ r ^ 2)

/-- Modelled from the spec: the sky-frame enum (frames.h is not under src/).
The subsystem references at least the frames ICRF, OBSERVED and VIEW. -/
inductive Frame where
  | icrf
  | observed
  | view
  deriving DecidableEq

/-- Modelled from the spec: a spherical cap (vec.h is not under src/), a
4-component value (center, cos (half_angle)).  The C code stores only the
cosine and recomputes the sine as sqrt (1 - c²), which is irrational; we carry
the sine `s` explicitly alongside, with the invariant 0 ≤ s ∧ c² + s² = 1
assumed where needed. -/
structure Cap where
  center : Vec3
  c : ℚ
  s : ℚ
  deriving DecidableEq

/-- Modelled from the spec: cap_intersects_cap (vec.h, not under src/) — true
iff dot (a.center, b.center) > cos (a.angle + b.angle), the cosine of the sum
expanded through the cos/sin half-angle products. -/
def cap_intersects_cap (a b : Cap) : Bool :=
  decide (a.c * b.c - a.s * b.s < vec3_dot a.center b.center)

/-- Modelled from the spec: cap_contains_vec3 (vec.h, not under src/) — true
iff dot (cap.center, v) ≥ cap.cosHalfAngle. -/
def cap_contains_vec3 (cap : Cap) (v : Vec3) : Bool :=
  decide (cap.c ≤ vec3_dot cap.center v)

/-- Per-frame clip information (the painter's clip_info entry): bounding cap,
list of viewport side caps (nb_viewport_caps entries), sky cap. -/
structure ClipInfo where
  bounding_cap : Cap
  viewport_caps : List Cap
  sky_cap : Cap
  deriving DecidableEq

/-- The external projection primitive (projection_t, not under src/):
window size, forward mapping to normalized device coordinates (dim-2 calls,
success flag plus value), forward mapping to homogeneous clip coordinates
(flags-0 dim-4 calls), backward mapping from NDC to a view direction
(PROJ_BACKWARD), and the optional discontinuity predicate. -/
structure Proj where
  window_size : Vec2
  fwdNdc : Vec3 → Bool × Vec2
  fwdClip : Vec4 → Vec4
  backward : Vec2 → Bool × Vec3
  intersect_discontinuity : Option (Vec3 → Vec3 → Bool)

/-- The painter state (painter_t): projection, object-to-view transform,
per-frame clip info, the PAINTER_HIDE_BELOW_HORIZON flag, and abstract
external collaborators: convert_frame for a fixed observer snapshot (3D and
4D variants), vec3_normalize (irrational in exact arithmetic), the
sin-from-cos helper sqrt (1 - c²) used when storing a cap computed from a
cosine, and the constants cos 91°, sin 91° of the sky cap. -/
structure Painter where
  proj : Proj
  transform : Mat4
  clip_info : Frame → ClipInfo
  hide_below_horizon : Bool
  convert : Frame → Frame → Bool → Vec3 → Vec3
  convert4 : Frame → Frame → Vec4 → Vec4
  normalize3 : Vec3 → Vec3
  sinFromCos : ℚ → ℚ
  cos91 : ℚ
  sin91 : ℚ

/-- Modelled from the spec: the normalized-device → window-pixel scaling that
the external projection primitive applies under PROJ_TO_WINDOW_SPACE; it is
the inverse of the concrete window → NDC formulas of painter_unproject
(painter.c:833-834). -/
def ndcToWindow (pr : Proj) (ndc : Vec2) : Vec2 :=
  ⟨(ndc.x + 1) / 2 * pr.window_size.x, (1 - ndc.y) / 2 * pr.window_size.y⟩

/-- Forward projection to window space (project with PROJ_TO_WINDOW_SPACE). -/
def projectToWindow (pr : Proj) (v : Vec3) : Bool × Vec2 :=
  let r := pr.fwdNdc v
  (r.1, ndcToWindow pr r.2)

/-- painter_unproject (painter.c:828-839): window pixel → NDC (concrete
formulas) → backward mapping → frame conversion from VIEW. -/
def painter_unproject (p : Painter) (f : Frame) (win : Vec2) : Bool × Vec3 :=
  let ndc : Vec2 := ⟨win.x / p.proj.window_size.x * 2 - 1,
                     1 - win.y / p.proj.window_size.y * 2⟩
  let r := p.proj.backward ndc
  (r.1, p.convert Frame.view f true r.2)

/-- painter_is_point_clipped_fast (painter.c:401-424). -/
def painter_is_point_clipped_fast (p : Painter) (f : Frame) (pos : Vec3)
    (is_normalized : Bool) : Bool :=
  let v := if is_normalized then pos else p.normalize3 pos
  if !cap_contains_vec3 (p.clip_info f).bounding_cap v then true
  else if p.hide_below_horizon && !cap_contains_vec3 (p.clip_info f).sky_cap v
    then true
  else (p.clip_info f).viewport_caps.any fun vc => !cap_contains_vec3 vc v

/-- painter_is_cap_clipped (painter.c:375-399): clipped when the cap misses
the bounding cap; when hide-below-horizon is set, also clipped when it misses
the sky cap; otherwise clipped when it misses any viewport side cap. -/
def painter_is_cap_clipped (p : Painter) (f : Frame) (cap : Cap) : Bool :=
  if !cap_intersects_cap (p.clip_info f).bounding_cap cap then true
  else if p.hide_below_horizon &&
      !cap_intersects_cap (p.clip_info f).sky_cap cap then true
  else (p.clip_info f).viewport_caps.any fun vc => !cap_intersects_cap vc cap

/-- painter_project (painter.c:814-826).  The C function asserts that the
transform is the identity and does not use it; failure is returned as a
boolean, modelled as Option. -/
def painter_project (p : Painter) (f : Frame) (pos : Vec3)
    (at_inf clip_first : Bool) : Option Vec2 :=
  if clip_first && painter_is_point_clipped_fast p f pos at_inf then none
  else
    let v := p.convert f Frame.view at_inf pos
    let r := projectToWindow p.proj v
    if r.1 then some r.2 else none

/-- painter_is_2d_point_clipped (painter.c:426-430), translated literally:
it returns true exactly when the point is inside the window rectangle. -/
def painter_is_2d_point_clipped (p : Painter) (pt : Vec2) : Bool :=
  decide (0 ≤ pt.x) && decide (pt.x ≤ p.proj.window_size.x) &&
  decide (0 ≤ pt.y) && decide (pt.y ≤ p.proj.window_size.y)

/-- painter_is_2d_circle_clipped (painter.c:432-438). -/
def painter_is_2d_circle_clipped (p : Painter) (pt : Vec2) (radius : ℚ) :
    Bool :=
  !intersect_circle_rect ⟨0, 0, p.proj.window_size.x, p.proj.window_size.y⟩
    pt radius

/-- The window positions of the four viewport corners used by
compute_viewport_cap (painter.c:89-92, MARGIN = 0). -/
def viewport_corner_win (pr : Proj) (i : Fin 4) : Vec2 :=
  match i with
  | 0 => ⟨0, 0⟩
  | 1 => ⟨pr.window_size.x, 0⟩
  | 2 => ⟨pr.window_size.x, pr.window_size.y⟩
  | 3 => ⟨0, pr.window_size.y⟩

/-- Unprojection of the i-th viewport corner (success flag and direction). -/
def viewport_corner (p : Painter) (f : Frame) (i : Fin 4) : Bool × Vec3 :=
  painter_unproject p f (viewport_corner_win p.proj i)

/-- Unprojection of the window center (painter.c:85; its success flag is
ignored by the C code). -/
def viewport_center (p : Painter) (f : Frame) : Vec3 :=
  (painter_unproject p f
    ⟨p.proj.window_size.x / 2, p.proj.window_size.y / 2⟩).2

/-- Conjunction of the four corner-unprojection success flags (the variable r
of compute_viewport_cap). -/
def viewport_corners_ok (p : Painter) (f : Frame) : Bool :=
  (viewport_corner p f 0).1 && (viewport_corner p f 1).1 &&
  (viewport_corner p f 2).1 && (viewport_corner p f 3).1

/-- Exact cosine-space value of cos (max_sep) in compute_viewport_cap
(painter.c:81-100).  The external eraSepp returns the angular separation in
[0, π] between unit vectors, whose cosine is their dot product; cos is
strictly antitone on [0, π], so cos (max over corners) = min over corners of
the dots, capped by cos 0 = 1 (the loop's initial value); when any corner
unprojection fails max_sep is forced to π, whose cosine is -1. -/
def viewport_cap_cos (p : Painter) (f : Frame) : ℚ :=
  if viewport_corners_ok p f then
    min 1 (min (min (vec3_dot (viewport_center p f) (viewport_corner p f 0).2)
                    (vec3_dot (viewport_center p f) (viewport_corner p f 1).2))
               (min (vec3_dot (viewport_center p f) (viewport_corner p f 2).2)
                    (vec3_dot (viewport_center p f) (viewport_corner p f 3).2)))
  else -1

/-- One viewport side cap (painter.c:107-114): the normalized cross product of
two adjacent corner directions, as a great-circle cap (cos = 0, sin = 1: the
fourth cap component is never written by painter.c and stays at its
zero-initialized value), sign-flipped when the bounding-cap center is not
contained. -/
def viewport_side_cap (p : Painter) (center a b : Vec3) : Cap :=
  if cap_contains_vec3 ⟨p.normalize3 (vec3_cross a b), 0, 1⟩ center then
    ⟨p.normalize3 (vec3_cross a b), 0, 1⟩
  else ⟨vec3_neg (p.normalize3 (vec3_cross a b)), 0, 1⟩

/-- compute_viewport_cap (painter.c:74-115) as a function from the painter
state to the frame's new clip info (sky cap untouched): stores the bounding
cap, and, only when max_sep ≤ π/2 (cosine ≥ 0), replaces the side-cap list by
the four side caps; otherwise it returns early, leaving the side caps as they
were. -/
def compute_viewport_cap (p : Painter) (f : Frame) : ClipInfo :=
  let center := viewport_center p f
  let c := viewport_cap_cos p f
  let bcap : Cap := ⟨center, c, p.sinFromCos c⟩
  if c < 0 then
    { p.clip_info f with bounding_cap := bcap }
  else
    { p.clip_info f with
      bounding_cap := bcap
      viewport_caps :=
        [viewport_side_cap p center (viewport_corner p f 0).2
           (viewport_corner p f 1).2,
         viewport_side_cap p center (viewport_corner p f 1).2
           (viewport_corner p f 2).2,
         viewport_side_cap p center (viewport_corner p f 2).2
           (viewport_corner p f 3).2,
         viewport_side_cap p center (viewport_corner p f 3).2
           (viewport_corner p f 0).2] }

/-- compute_sky_cap (painter.c:117-122): the local zenith converted from the
OBSERVED frame, with the fixed 91° half-angle (cos 91°, sin 91° are abstract
painter constants, being irrational). -/
def compute_sky_cap (p : Painter) (f : Frame) : Cap :=
  ⟨p.convert Frame.observed f true ⟨0, 0, 1⟩, p.cos91, p.sin91⟩

/-- painter_update_clip_info (painter.c:124-131): refresh every frame's
viewport cap and sky cap. -/
def painter_update_clip_info (p : Painter) : Painter :=
  { p with clip_info := fun f =>
      { compute_viewport_cap p f with sky_cap := compute_sky_cap p f } }

/-- Modelled from the spec: a UV-parametrized quad/tile (the uv_map_t healpix
utilities are not under src/).  The external uv_map_get_bounding_cap,
uv_map_grid (grid size 1, giving the 4 corner positions) and uv_map_subdivide
results are carried as data on the map: `tile` is a map whose subdivision is
not expanded in the model, `subdivided` carries its four children (the C
uv_map_subdivide always produces exactly 4 children, of order + 1). -/
inductive UVMap where
  | tile (order : ℤ) (cap : Cap) (q0 q1 q2 q3 : Vec3)
  | subdivided (order : ℤ) (cap : Cap) (q0 q1 q2 q3 : Vec3)
      (ch0 ch1 ch2 ch3 : UVMap)
  deriving DecidableEq

/-- Subdivision order of a uv map. -/
def UVMap.order : UVMap → ℤ
  | .tile o _ _ _ _ _ => o
  | .subdivided o _ _ _ _ _ _ _ _ _ => o

/-- Bounding cap of a uv map (uv_map_get_bounding_cap). -/
def UVMap.cap : UVMap → Cap
  | .tile _ c _ _ _ _ => c
  | .subdivided _ c _ _ _ _ _ _ _ _ => c

/-- The i-th corner position of a uv map (uv_map_grid with grid size 1). -/
def UVMap.corner : UVMap → Fin 4 → Vec3
  | .tile _ _ a b c d, i => match i with
    | 0 => a | 1 => b | 2 => c | 3 => d
  | .subdivided _ _ a b c d _ _ _ _, i => match i with
    | 0 => a | 1 => b | 2 => c | 3 => d

/-- The children of a uv map as a list (uv_map_subdivide). -/
def UVMap.children : UVMap → List UVMap
  | .tile _ _ _ _ _ _ => []
  | .subdivided _ _ _ _ _ _ a b c d => [a, b, c, d]

/-- The quad's bounding cap transformed into view space by the painter's
transform (painter.c:452-453: mat4_mul_vec3_dir on the center, cosine kept). -/
def quadBoundingCapView (p : Painter) (m : UVMap) : Cap :=
  { m.cap with center := mat4_mul_vec3_dir p.transform m.cap.center }

/-- Clip-space position of the i-th quad corner (painter.c:475-483): corner
with w = 1, through the transform, convert_framev4 to VIEW, and the
projection's dim-4 flags-0 forward mapping. -/
def quadCornerClip (p : Painter) (f : Frame) (m : UVMap) (i : Fin 4) : Vec4 :=
  let q := m.corner i
  p.proj.fwdClip (p.convert4 f Frame.view
    (mat4_mul_vec4 p.transform ⟨q.x, q.y, q.z, 1⟩))

/-- The four projected clip-space corners of a quad. -/
def quadClipPts (p : Painter) (f : Frame) (m : UVMap) : List Vec4 :=
  [quadCornerClip p f m 0, quadCornerClip p f m 1,
   quadCornerClip p f m 2, quadCornerClip p f m 3]

/-- Direction toward the body's center (painter.c:496-499): the transform's
translation column, normalized and converted to VIEW. -/
def quadDirection (p : Painter) (f : Frame) : Vec3 :=
  p.convert f Frame.view true (p.normalize3 (vec4_xyz p.transform.c3))

/-- View-space normal at the i-th quad corner (painter.c:500-506): the corner
as a direction (w = 0) through the transform, normalized, converted to VIEW. -/
def quadCornerNormal (p : Painter) (f : Frame) (m : UVMap) (i : Fin 4) :
    Vec3 :=
  let q := m.corner i
  p.convert f Frame.view true
    (p.normalize3 (vec4_xyz (mat4_mul_vec4 p.transform ⟨q.x, q.y, q.z, 0⟩)))

/-- Back-face test value at the i-th corner (painter.c:507): dot product of
the corner's view-space normal with the direction toward the body center. -/
def quadBackfaceDot (p : Painter) (f : Frame) (m : UVMap) (i : Fin 4) : ℚ :=
  vec3_dot (quadCornerNormal p f m i) (quadDirection p f)

/-- painter_is_quad_clipped (painter.c:440-513).  For `outside` quads: cap
test, then "not clipped" at order < 2.  Otherwise at order < 2 (planet case):
clipped only when all 4 children are clipped (for an unexpanded `tile` the
model returns the vacuous conjunction true; the C subdivision always
succeeds, so this case corresponds to no real execution).  At order ≥ 2:
frustum test on the 4 projected corners, then, for solid bodies at order > 1,
back-face culling: not clipped as soon as one corner's dot is negative. -/
def painter_is_quad_clipped (p : Painter) (f : Frame) (m : UVMap)
    (outside : Bool) : Bool :=
  if outside && painter_is_cap_clipped p f (quadBoundingCapView p m) then true
  else if outside && decide (m.order < 2) then false
  else if decide (m.order < 2) then
    match m with
    | .tile _ _ _ _ _ _ => true
    | .subdivided _ _ _ _ _ _ a b c d =>
      painter_is_quad_clipped p f a outside &&
      painter_is_quad_clipped p f b outside &&
      painter_is_quad_clipped p f c outside &&
      painter_is_quad_clipped p f d outside
  else if is_clipped (quadClipPts p f m) then true
  else if !outside && decide (1 < m.order) then
    !((List.finRange 4).any fun i => decide (quadBackfaceDot p f m i < 0))
  else false

/-- Application of an optional uv map (uv_map; the map is an external
collaborator, carried as a function). -/
def uv_map_apply (map : Option (Vec4 → Vec4)) (v : Vec4) : Vec4 :=
  match map with
  | some mp => mp v
  | none => v

/-- View-space position of a line endpoint for the discontinuity test
(paint_line, painter.c:274-283): optional uv map, transform, normalize,
convert to VIEW. -/
def line_point_view (p : Painter) (f : Frame) (map : Option (Vec4 → Vec4))
    (pt : Vec4) : Vec3 :=
  p.convert f Frame.view true
    (p.normalize3 (vec4_xyz (mat4_mul_vec4 p.transform (uv_map_apply map pt))))

/-- line_func (painter.c:241-257): the window-space point of the line at
parameter t. -/
def line_func (p : Painter) (f : Frame) (l0 l1 : Vec4)
    (map : Option (Vec4 → Vec4)) (t : ℚ) : Vec2 :=
  let pos := uv_map_apply map (vec4_mix l0 l1 t)
  (projectToWindow p.proj
    (p.convert f Frame.view true
      (p.normalize3 (vec4_xyz (mat4_mul_vec4 p.transform pos))))).2

/-- Modelled from the spec: line_tesselate (line_mesh.c, not under src/) — an
adaptive polyline sampler guaranteeing a polyline no coarser than `split`
segments; modelled minimally as exactly the split + 1 samples at t = i/split. -/
def line_tesselate (fn : ℚ → Vec2) (split : ℕ) : List Vec2 :=
  (List.range (split + 1)).map fun (i : ℕ) => fn ((i : ℚ) / (split : ℚ))

/-- paint_line (painter.c:259-293), returning the C return code together with
the polyline submitted to the renderer ([] when nothing is submitted).  When
the skip-discontinuity flag is set and the projection exposes a discontinuity
predicate, the two endpoints are mapped to view space and tested; a
seam-crossing segment is dropped entirely. -/
def paint_line (p : Painter) (f : Frame) (l0 l1 : Vec4)
    (map : Option (Vec4 → Vec4)) (split : ℕ) (skip_disc : Bool) :
    ℤ × List Vec2 :=
  if skip_disc then
    match p.proj.intersect_discontinuity with
    | some pred =>
      if pred (line_point_view p f map l0) (line_point_view p f map l1) then
        (0, [])
      else (0, line_tesselate (line_func p f l0 l1 map) split)
    | none => (0, line_tesselate (line_func p f l0 l1 map) split)
  else (0, line_tesselate (line_func p f l0 l1 map) split)

/-- A hemisphere cap around +z (half-angle π/2), used as a concrete test
value. -/
def trivial_cap : Cap := ⟨⟨0, 0, 1⟩, 0, 1⟩

/-- A concrete clip-info value: hemisphere bounding cap, no side caps,
hemisphere sky cap. -/
def base_clip_info : ClipInfo := ⟨trivial_cap, [], trivial_cap⟩

/-- A concrete invertible orthographic-like projection on an 800x600 window:
the forward NDC mapping reads the first two view coordinates, the backward
mapping embeds NDC at view depth -1; forward (backward q) = (true, q). -/
def base_proj : Proj where
  window_size := ⟨800, 600⟩
  fwdNdc := fun v => (true, ⟨v.x, v.y⟩)
  fwdClip := fun _ => ⟨0, 0, 0, 1⟩
  backward := fun q => (true, ⟨q.x, q.y, -1⟩)
  intersect_discontinuity := none

/-- A concrete painter: identity transform, identity frame conversion,
identity normalization, hemisphere clip info for every frame. -/
def base_painter : Painter where
  proj := base_proj
  transform := mat4_id
  clip_info := fun _ => base_clip_info
  hide_below_horizon := false
  convert := fun _ _ _ v => v
  convert4 := fun _ _ v => v
  normalize3 := id
  sinFromCos := fun _ => 0
  cos91 := 0
  sin91 := 1

/-- C3: the frustum test reports a list of clip-space points fully clipped iff
some canonical clip plane has every point strictly on its outside
(plane · point > 0); in particular a list containing the clip-space origin
(0,0,0,1) is never reported fully clipped. -/
theorem is_clipped_characterization (pos : List Vec4) (hn : 1 ≤ pos.length) :
    (is_clipped pos = true ↔
      ∃ P ∈ clip_planes, ∀ q ∈ pos, 0 < vec4_dot P q) ∧
    ((⟨0, 0, 0, 1⟩ : Vec4) ∈ pos → is_clipped pos = false) := by
  have h1 : is_clipped pos = true ↔
      ∃ P ∈ clip_planes, ∀ q ∈ pos, 0 < vec4_dot P q := by
    simp [is_clipped, List.any_eq_true, List.all_eq_true]
  refine ⟨h1, fun hmem => ?_⟩
  by_contra hne
  have ht : is_clipped pos = true := by
    cases hcl : is_clipped pos
    · exact absurd hcl hne
    · rfl
  obtain ⟨P, hP, hall⟩ := h1.mp ht
  have hpt := hall _ hmem
  simp [clip_planes] at hP
  rcases hP with rfl | rfl | rfl | rfl | rfl | rfl <;>
    (simp [vec4_dot] at hpt; linarith)

/-- C3 witness: the singleton list containing the clip-space origin has
length ≥ 1 and is not reported clipped. -/
theorem is_clipped_characterization_witness :
    is_clipped [(⟨0, 0, 0, 1⟩ : Vec4)] = false :=
  (is_clipped_characterization [⟨0, 0, 0, 1⟩] (by simp)).2 (by simp)

/-- C9 counterexample: both degenerate caps with center (0,0,1) — half-angle 0
(cos = 1, sin = 0) and half-angle π (cos = -1, sin = 0) — are valid caps
(unit center, cos² + sin² = 1, cos ∈ [-1,1]), yet the strict dot-product
inequality makes each fail to intersect itself; each still contains its own
center. -/
theorem cap_intersects_self_cex :
    (vec3_dot (⟨0, 0, 1⟩ : Vec3) ⟨0, 0, 1⟩ = 1 ∧
     (1 : ℚ) ^ 2 + (0 : ℚ) ^ 2 = 1 ∧
     cap_intersects_cap ⟨⟨0, 0, 1⟩, 1, 0⟩ ⟨⟨0, 0, 1⟩, 1, 0⟩ = false ∧
     cap_contains_vec3 ⟨⟨0, 0, 1⟩, 1, 0⟩ ⟨0, 0, 1⟩ = true) ∧
    ((-1 : ℚ) ^ 2 + (0 : ℚ) ^ 2 = 1 ∧
     cap_intersects_cap ⟨⟨0, 0, 1⟩, -1, 0⟩ ⟨⟨0, 0, 1⟩, -1, 0⟩ = false ∧
     cap_contains_vec3 ⟨⟨0, 0, 1⟩, -1, 0⟩ ⟨0, 0, 1⟩ = true) := by
  norm_num [vec3_dot, cap_intersects_cap, cap_contains_vec3]

/-- C9 amended: for every valid cap (unit center, cos² + sin² = 1),
containment of the own center holds, and the cap intersects itself exactly
when the cosine of the half-angle lies strictly between -1 and 1 — so
self-intersection fails precisely at the degenerate endpoints cos = 1
(half-angle 0) and cos = -1 (half-angle π). -/
theorem cap_self_intersection (a : Cap)
    (hunit : vec3_dot a.center a.center = 1)
    (hcs : a.c ^ 2 + a.s ^ 2 = 1) :
    cap_contains_vec3 a a.center = true ∧
    (cap_intersects_cap a a = true ↔ (-1 < a.c ∧ a.c < 1)) := by
  constructor
  · have hc1 : a.c ≤ 1 := by nlinarith [sq_nonneg a.s, sq_nonneg (a.c - 1)]
    simp only [cap_contains_vec3, decide_eq_true_eq, hunit]
    linarith
  · simp only [cap_intersects_cap, decide_eq_true_eq, hunit]
    constructor
    · intro h
      constructor
      · nlinarith [hcs, sq_nonneg (a.c + 1)]
      · nlinarith [hcs, sq_nonneg (a.c - 1)]
    · rintro ⟨h1, h2⟩
      nlinarith [hcs, mul_pos (by linarith : (0:ℚ) < 1 - a.c)
        (by linarith : (0:ℚ) < 1 + a.c)]

/-- C9 witness: a concrete nondegenerate cap (cos = 3/5, sin = 4/5) contains
its center and intersects itself, and a concrete degenerate cap (cos = -1,
sin = 0) contains its center while failing to intersect itself. -/
theorem cap_self_intersection_witness :
    (cap_contains_vec3 ⟨⟨1, 0, 0⟩, 3/5, 4/5⟩ ⟨1, 0, 0⟩ = true ∧
     cap_intersects_cap ⟨⟨1, 0, 0⟩, 3/5, 4/5⟩ ⟨⟨1, 0, 0⟩, 3/5, 4/5⟩ =
       true) ∧
    (cap_contains_vec3 ⟨⟨1, 0, 0⟩, -1, 0⟩ ⟨1, 0, 0⟩ = true ∧
     cap_intersects_cap ⟨⟨1, 0, 0⟩, -1, 0⟩ ⟨⟨1, 0, 0⟩, -1, 0⟩ = false) := by
  have h1 := cap_self_intersection ⟨⟨1, 0, 0⟩, 3/5, 4/5⟩
    (by norm_num [vec3_dot]) (by norm_num)
  have h2 := cap_self_intersection ⟨⟨1, 0, 0⟩, -1, 0⟩
    (by norm_num [vec3_dot]) (by norm_num)
  refine ⟨⟨h1.1, h1.2.mpr (by norm_num)⟩, ⟨h2.1, ?_⟩⟩
  cases hcl : cap_intersects_cap ⟨⟨1, 0, 0⟩, -1, 0⟩ ⟨⟨1, 0, 0⟩, -1, 0⟩
  · rfl
  · exact absurd (h2.2.mp hcl).1 (by norm_num)

/-- C10: painter_is_2d_point_clipped returns true exactly when the point lies
inside the window rectangle — the opposite polarity of
painter_is_2d_circle_clipped, which returns true exactly when the circle does
not intersect the window rectangle; for a point inside the window the former
returns true while the latter (radius 0) returns false. -/
theorem painter_is_2d_point_clipped_polarity (p : Painter) (pt : Vec2)
    (r : ℚ) :
    (painter_is_2d_point_clipped p pt = true ↔
      0 ≤ pt.x ∧ pt.x ≤ p.proj.window_size.x ∧
      0 ≤ pt.y ∧ pt.y ≤ p.proj.window_size.y) ∧
    (painter_is_2d_circle_clipped p pt r = true ↔
      intersect_circle_rect
        ⟨0, 0, p.proj.window_size.x, p.proj.window_size.y⟩ pt r = false) ∧
    (0 ≤ pt.x → pt.x ≤ p.proj.window_size.x →
     0 ≤ pt.y → pt.y ≤ p.proj.window_size.y →
      painter_is_2d_point_clipped p pt = true ∧
      painter_is_2d_circle_clipped p pt 0 = false) := by
  refine ⟨?_, ?_, ?_⟩
  · simp [painter_is_2d_point_clipped, and_assoc]
  · simp [painter_is_2d_circle_clipped]
  · intro h1 h2 h3 h4
    constructor
    · simp [painter_is_2d_point_clipped, h1, h2, h3, h4]
    · have hx : |pt.x - p.proj.window_size.x / 2| ≤
          p.proj.window_size.x / 2 := by
        rw [abs_le]; constructor <;> linarith
      have hy : |pt.y - p.proj.window_size.y / 2| ≤
          p.proj.window_size.y / 2 := by
        rw [abs_le]; constructor <;> linarith
      simp [painter_is_2d_circle_clipped, intersect_circle_rect]
      exact ⟨hx, hy, fun hgt _ => absurd hgt (not_lt.mpr hx)⟩

/-- C6: painter_is_cap_clipped reports clipped whenever the cap misses the
frame's viewport bounding cap, and — when the hide-below-horizon flag is
set — whenever the cap misses the frame's sky cap, regardless of the
viewport side caps. -/
theorem painter_is_cap_clipped_sound (p : Painter) (f : Frame) (cap : Cap) :
    (cap_intersects_cap (p.clip_info f).bounding_cap cap = false →
      painter_is_cap_clipped p f cap = true) ∧
    (p.hide_below_horizon = true →
      cap_intersects_cap (p.clip_info f).sky_cap cap = false →
      painter_is_cap_clipped p f cap = true) := by
  constructor
  · intro h
    simp [painter_is_cap_clipped, h]
  · intro hflag h
    by_cases hb : cap_intersects_cap (p.clip_info f).bounding_cap cap = true
    · simp [painter_is_cap_clipped, hb, hflag, h]
    · rw [Bool.not_eq_true] at hb
      simp [painter_is_cap_clipped, hb]

/-- A cap on the opposite side of the sphere from the hemisphere bounding
cap: it does not intersect trivial_cap. -/
def cex6_cap : Cap := ⟨⟨0, 0, -1⟩, 1, 0⟩

/-- A painter with hide-below-horizon set whose sky cap is the point cap at
-z, so that caps around +z miss it while intersecting the bounding cap. -/
def hide_painter : Painter :=
  { base_painter with
    hide_below_horizon := true
    clip_info := fun _ => ⟨trivial_cap, [], ⟨⟨0, 0, -1⟩, 1, 0⟩⟩ }

/-- A point cap at +z: intersects the hemisphere bounding cap but misses
hide_painter's sky cap. -/
def sky_miss_cap : Cap := ⟨⟨0, 0, 1⟩, 1, 0⟩

/-- C6 witness: both implications applied at concrete caps. -/
theorem painter_is_cap_clipped_sound_witness :
    painter_is_cap_clipped base_painter Frame.view cex6_cap = true ∧
    painter_is_cap_clipped hide_painter Frame.view sky_miss_cap = true :=
  ⟨(painter_is_cap_clipped_sound base_painter Frame.view cex6_cap).1
      (by norm_num [base_painter, base_clip_info, trivial_cap, cex6_cap,
        cap_intersects_cap, vec3_dot]),
   (painter_is_cap_clipped_sound hide_painter Frame.view sky_miss_cap).2 rfl
      (by norm_num [hide_painter, base_painter, sky_miss_cap,
        cap_intersects_cap, vec3_dot])⟩

/-- Every viewport side cap contains the center it was oriented toward: the
construction flips the sign of the great-circle normal exactly when the
center is not already contained. -/
theorem viewport_side_cap_contains (p : Painter) (center a b : Vec3) :
    cap_contains_vec3 (viewport_side_cap p center a b) center = true := by
  unfold viewport_side_cap
  split
  · assumption
  · rename_i h
    rw [Bool.not_eq_true] at h
    simp only [cap_contains_vec3, decide_eq_true_eq, decide_eq_false_iff_not,
      not_le] at h ⊢
    have hneg : vec3_dot
        (vec3_neg (p.normalize3 (vec3_cross a b))) center =
        -(vec3_dot (p.normalize3 (vec3_cross a b)) center) := by
      simp [vec3_dot, vec3_neg]; ring
    rw [hneg]
    linarith

/-- The bounding cap stored by compute_viewport_cap has the cosine-space
value viewport_cap_cos, in both branches. -/
theorem compute_viewport_cap_bounding_c (p : Painter) (f : Frame) :
    (compute_viewport_cap p f).bounding_cap.c = viewport_cap_cos p f := by
  unfold compute_viewport_cap
  dsimp only
  split
  · rfl
  · rfl

/-- C8: when all four corner unprojections succeed and the maximum angular
separation is at most π/2 (equivalently, its cosine is nonnegative), the
viewport-cap builder produces exactly 4 side caps, each containing the
bounding cap's center. -/
theorem compute_viewport_cap_side_caps (p : Painter) (f : Frame)
    (hok : viewport_corners_ok p f = true)
    (hc : 0 ≤ viewport_cap_cos p f) :
    (compute_viewport_cap p f).viewport_caps.length = 4 ∧
    ∀ cap ∈ (compute_viewport_cap p f).viewport_caps,
      cap_contains_vec3 cap (compute_viewport_cap p f).bounding_cap.center =
        true := by
  have hnot : ¬ viewport_cap_cos p f < 0 := not_lt.mpr hc
  unfold compute_viewport_cap
  rw [if_neg hnot]
  refine ⟨rfl, ?_⟩
  intro cap hcap
  simp only [List.mem_cons, List.not_mem_nil, or_false] at hcap
  rcases hcap with rfl | rfl | rfl | rfl <;>
    exact viewport_side_cap_contains p (viewport_center p f) _ _

/-- C8 witness: on the concrete base painter all corner unprojections succeed
with cosine 1, yielding 4 side caps containing the bounding-cap center. -/
theorem compute_viewport_cap_side_caps_witness :
    (compute_viewport_cap base_painter Frame.view).viewport_caps.length = 4 ∧
    ∀ cap ∈ (compute_viewport_cap base_painter Frame.view).viewport_caps,
      cap_contains_vec3 cap
        (compute_viewport_cap base_painter Frame.view).bounding_cap.center =
        true :=
  compute_viewport_cap_side_caps base_painter Frame.view
    (by norm_num [viewport_corners_ok, viewport_corner, painter_unproject,
      base_painter, base_proj])
    (by norm_num [viewport_cap_cos, viewport_corners_ok, viewport_corner,
      viewport_corner_win, viewport_center, painter_unproject, base_painter,
      base_proj, vec3_dot])

/-- C2 amended: after painter_update_clip_info, a frame's side-cap count is
exactly 4 when the stored bounding-cap cosine is nonnegative (maximum angular
separation ≤ π/2); when the cosine is negative (separation > π/2) the
side-cap list is left unchanged from the previous painter state — it is 0
only when it already was 0 (e.g. for a freshly zero-initialized painter), not
unconditionally. -/
theorem painter_update_clip_info_side_caps (p : Painter) (f : Frame) :
    (0 ≤ ((painter_update_clip_info p).clip_info f).bounding_cap.c →
      ((painter_update_clip_info p).clip_info f).viewport_caps.length = 4) ∧
    (((painter_update_clip_info p).clip_info f).bounding_cap.c < 0 →
      ((painter_update_clip_info p).clip_info f).viewport_caps =
        (p.clip_info f).viewport_caps) := by
  have hb : ((painter_update_clip_info p).clip_info f).bounding_cap =
      (compute_viewport_cap p f).bounding_cap := rfl
  have hv : ((painter_update_clip_info p).clip_info f).viewport_caps =
      (compute_viewport_cap p f).viewport_caps := rfl
  rw [hb, hv, compute_viewport_cap_bounding_c]
  by_cases hlt : viewport_cap_cos p f < 0
  · refine ⟨fun hge => absurd hlt (not_lt.mpr hge), fun _ => ?_⟩
    unfold compute_viewport_cap
    dsimp only
    rw [if_pos hlt]
  · refine ⟨fun _ => ?_, fun hlt2 => absurd hlt2 hlt⟩
    unfold compute_viewport_cap
    dsimp only
    rw [if_neg hlt]
    rfl

/-- A projection whose backward mapping always fails: every corner
unprojection fails, forcing max_sep to π (cosine -1). -/
def fail_proj : Proj :=
  { base_proj with backward := fun _ => (false, ⟨0, 0, 1⟩) }

/-- A painter carrying one stale viewport side cap from a previous state,
with a projection whose unprojections fail. -/
def stale_painter : Painter :=
  { base_painter with
    proj := fail_proj
    clip_info := fun _ => ⟨trivial_cap, [trivial_cap], trivial_cap⟩ }

/-- C2 counterexample: refreshing the clip info of stale_painter computes a
bounding-cap cosine < 0 (max separation > π/2), yet the number of stored
side caps is 1, not 0 — compute_viewport_cap returns early without resetting
nb_viewport_caps. -/
theorem painter_update_clip_info_side_caps_cex :
    ((painter_update_clip_info stale_painter).clip_info
        Frame.view).bounding_cap.c < 0 ∧
    ((painter_update_clip_info stale_painter).clip_info
        Frame.view).viewport_caps.length = 1 := by
  have hc : viewport_cap_cos stale_painter Frame.view = -1 := by
    norm_num [viewport_cap_cos, viewport_corners_ok, viewport_corner,
      painter_unproject, stale_painter, fail_proj, base_proj, base_painter]
  constructor
  · have hb : ((painter_update_clip_info stale_painter).clip_info
        Frame.view).bounding_cap.c =
        viewport_cap_cos stale_painter Frame.view :=
      compute_viewport_cap_bounding_c stale_painter Frame.view
    rw [hb, hc]
    norm_num
  · have hv : ((painter_update_clip_info stale_painter).clip_info
        Frame.view).viewport_caps =
        (compute_viewport_cap stale_painter Frame.view).viewport_caps := rfl
    rw [hv]
    unfold compute_viewport_cap
    rw [if_pos (by rw [hc]; norm_num)]
    simp [stale_painter]

/-- C2 witness: on the base painter the refreshed cosine is nonnegative and
exactly 4 side caps are stored. -/
theorem painter_update_clip_info_side_caps_witness :
    ((painter_update_clip_info base_painter).clip_info
        Frame.view).viewport_caps.length = 4 :=
  (painter_update_clip_info_side_caps base_painter Frame.view).1
    (by norm_num [painter_update_clip_info, compute_viewport_cap,
      viewport_cap_cos, viewport_corners_ok, viewport_corner,
      viewport_corner_win, viewport_center, painter_unproject, base_painter,
      base_proj, vec3_dot])

/-- An unexpanded order-1 child tile whose bounding cap (point cap at -z)
misses trivial_cap, so it is cap-clipped as an outside quad. -/
def cex_child : UVMap :=
  UVMap.tile 1 ⟨⟨0, 0, -1⟩, 1, 0⟩ ⟨1, 0, 0⟩ ⟨1, 0, 0⟩ ⟨1, 0, 0⟩ ⟨1, 0, 0⟩

/-- An order-0 quad whose own bounding cap (hemisphere at +z) intersects the
viewport bounding cap, subdivided into four cap-clipped children. -/
def cex_map : UVMap :=
  UVMap.subdivided 0 ⟨⟨0, 0, 1⟩, 0, 1⟩ ⟨1, 0, 0⟩ ⟨1, 0, 0⟩ ⟨1, 0, 0⟩
    ⟨1, 0, 0⟩ cex_child cex_child cex_child cex_child

/-- C1 counterexample: an outside quad of order 0 whose bounding cap is not
clipped and all four of whose children are clipped, yet the quad clip test
returns not clipped — for outside quads at order < 2 the code returns false
immediately and never recurses into the children. -/
theorem painter_is_quad_clipped_outside_recursion_cex :
    painter_is_cap_clipped base_painter Frame.view
      (quadBoundingCapView base_painter cex_map) = false ∧
    cex_map.order < 2 ∧
    cex_map.children.length = 4 ∧
    (∀ ch ∈ cex_map.children,
      painter_is_quad_clipped base_painter Frame.view ch true = true) ∧
    painter_is_quad_clipped base_painter Frame.view cex_map true = false := by
  have hcap : painter_is_cap_clipped base_painter Frame.view
      (quadBoundingCapView base_painter cex_map) = false := by
    norm_num [painter_is_cap_clipped, quadBoundingCapView, cex_map,
      UVMap.cap, base_painter, base_clip_info, trivial_cap,
      cap_intersects_cap, vec3_dot, mat4_mul_vec3_dir, mat4_mul_vec4,
      mat4_id, vec4_xyz]
  have hchild : painter_is_quad_clipped base_painter Frame.view cex_child
      true = true := by
    norm_num [painter_is_quad_clipped, painter_is_cap_clipped,
      quadBoundingCapView, cex_child, UVMap.cap, base_painter,
      base_clip_info, trivial_cap, cap_intersects_cap, vec3_dot,
      mat4_mul_vec3_dir, mat4_mul_vec4, mat4_id, vec4_xyz]
  refine ⟨hcap, by norm_num [cex_map, UVMap.order],
    by norm_num [cex_map, UVMap.children], ?_, ?_⟩
  · intro ch hch
    simp only [cex_map, UVMap.children, List.mem_cons, List.not_mem_nil,
      or_false] at hch
    rcases hch with rfl | rfl | rfl | rfl <;> exact hchild
  · rw [painter_is_quad_clipped.eq_def]
    rw [hcap]
    norm_num [cex_map, UVMap.order]

/-- C1 amended: for an outside quad whose view-space bounding cap is not
clipped and whose order is below 2, painter_is_quad_clipped returns
not clipped immediately (the recursion into the 4 children applies only to
solid-body quads, outside = false). -/
theorem painter_is_quad_clipped_outside_low_order (p : Painter) (f : Frame)
    (m : UVMap)
    (hcap : painter_is_cap_clipped p f (quadBoundingCapView p m) = false)
    (hord : m.order < 2) :
    painter_is_quad_clipped p f m true = false := by
  rw [painter_is_quad_clipped.eq_def, hcap]
  simp [hord]

/-- C1 witness: the amended statement applied at the concrete order-0 quad. -/
theorem painter_is_quad_clipped_outside_low_order_witness :
    painter_is_quad_clipped base_painter Frame.view cex_map true = false :=
  painter_is_quad_clipped_outside_low_order base_painter Frame.view cex_map
    (by norm_num [painter_is_cap_clipped, quadBoundingCapView, cex_map,
      UVMap.cap, base_painter, base_clip_info, trivial_cap,
      cap_intersects_cap, vec3_dot, mat4_mul_vec3_dir, mat4_mul_vec4,
      mat4_id, vec4_xyz])
    (by norm_num [cex_map, UVMap.order])

/-- C7: for a solid-body quad (outside = false) of order > 1 whose four
projected corners are not fully frustum-clipped, the quad clip test returns
not clipped exactly when the dot product of some corner's view-space normal
with the direction toward the body center is negative (equivalently, it
returns clipped exactly when all four dot products are nonnegative). -/
theorem painter_is_quad_clipped_backface (p : Painter) (f : Frame) (m : UVMap)
    (hord : 1 < m.order)
    (hfr : is_clipped (quadClipPts p f m) = false) :
    painter_is_quad_clipped p f m false = false ↔
      ∃ i : Fin 4, quadBackfaceDot p f m i < 0 := by
  have h2 : ¬ m.order < 2 := by omega
  rw [painter_is_quad_clipped.eq_def]
  simp [h2, hfr, hord, List.any_eq_true]

/-- A concrete order-2 tile with identity geometry, used for the back-face
witness: its projected corners are the clip-space origin (not clipped) and
all four back-face dot products are 0, so the tile is reported clipped. -/
def bf_map : UVMap :=
  UVMap.tile 2 trivial_cap ⟨1, 0, 0⟩ ⟨1, 0, 0⟩ ⟨1, 0, 0⟩ ⟨1, 0, 0⟩

/-- C7 witness: the equivalence applied at the concrete order-2 tile. -/
theorem painter_is_quad_clipped_backface_witness :
    (painter_is_quad_clipped base_painter Frame.view bf_map false = false ↔
      ∃ i : Fin 4, quadBackfaceDot base_painter Frame.view bf_map i < 0) :=
  painter_is_quad_clipped_backface base_painter Frame.view bf_map
    (by norm_num [bf_map, UVMap.order])
    (by norm_num [is_clipped, quadClipPts, quadCornerClip, clip_planes,
      base_painter, base_proj, vec4_dot, bf_map, UVMap.corner])

/-- C4: when the skip-discontinuity flag is set, the projection exposes a
discontinuity predicate, and that predicate reports the two view-space
endpoints as seam-crossing, paint_line submits no polyline ([]) and returns
success (0); with the flag unset the segment is tessellated and the submitted
polyline is non-empty. -/
theorem paint_line_discontinuity (p : Painter) (f : Frame) (l0 l1 : Vec4)
    (map : Option (Vec4 → Vec4)) (split : ℕ) (pred : Vec3 → Vec3 → Bool)
    (hpred : p.proj.intersect_discontinuity = some pred)
    (hcross : pred (line_point_view p f map l0)
      (line_point_view p f map l1) = true) :
    paint_line p f l0 l1 map split true = (0, []) ∧
    paint_line p f l0 l1 map split false =
      (0, line_tesselate (line_func p f l0 l1 map) split) ∧
    (paint_line p f l0 l1 map split false).2 ≠ [] := by
  refine ⟨?_, rfl, ?_⟩
  · simp [paint_line, hpred, hcross]
  · have hlen : (line_tesselate (line_func p f l0 l1 map) split).length =
        split + 1 := by
      rw [line_tesselate, List.length_map, List.length_range]
    intro h
    rw [show (paint_line p f l0 l1 map split false).2 =
      line_tesselate (line_func p f l0 l1 map) split from rfl] at h
    rw [h] at hlen
    simp at hlen

/-- A projection exposing a discontinuity predicate that reports every
segment as seam-crossing. -/
def disc_proj : Proj :=
  { base_proj with intersect_discontinuity := some fun _ _ => true }

/-- The base painter equipped with disc_proj. -/
def disc_painter : Painter := { base_painter with proj := disc_proj }

/-- C4 witness: on the concrete discontinuity-reporting painter, a segment is
dropped with the flag set and tessellated non-empty with the flag unset. -/
theorem paint_line_discontinuity_witness :
    paint_line disc_painter Frame.view ⟨1, 0, 0, 1⟩ ⟨0, 1, 0, 1⟩ none 2
        true = (0, []) ∧
    paint_line disc_painter Frame.view ⟨1, 0, 0, 1⟩ ⟨0, 1, 0, 1⟩ none 2
        false =
      (0, line_tesselate
        (line_func disc_painter Frame.view ⟨1, 0, 0, 1⟩ ⟨0, 1, 0, 1⟩ none)
        2) ∧
    (paint_line disc_painter Frame.view ⟨1, 0, 0, 1⟩ ⟨0, 1, 0, 1⟩ none 2
        false).2 ≠ [] :=
  paint_line_discontinuity disc_painter Frame.view ⟨1, 0, 0, 1⟩
    ⟨0, 1, 0, 1⟩ none 2 (fun _ _ => true) rfl rfl

/-- C5: unprojecting a window position in frame VIEW and projecting the
result back returns exactly the original window position (exact arithmetic;
a fortiori within the 1e-6 relative tolerance of the spec), for any painter
whose projection is invertible (forward of backward is the identity on
successfully unprojected NDC points), whose frame conversion is the identity
on VIEW → VIEW, with nonzero window dimensions and the identity transform
asserted by painter_project. -/
theorem painter_project_unproject_round_trip (p : Painter) (win : Vec2)
    (htr : p.transform = mat4_id)
    (hW : p.proj.window_size.x ≠ 0) (hH : p.proj.window_size.y ≠ 0)
    (hconv : ∀ v, p.convert Frame.view Frame.view true v = v)
    (hinv : ∀ q : Vec2, (p.proj.backward q).1 = true →
      p.proj.fwdNdc (p.proj.backward q).2 = (true, q))
    (hok : (painter_unproject p Frame.view win).1 = true) :
    painter_project p Frame.view (painter_unproject p Frame.view win).2
      true false = some win := by
  obtain ⟨wx, wy⟩ := win
  simp only [painter_unproject] at hok ⊢
  rw [hconv]
  simp only [painter_project, projectToWindow, Bool.false_and,
    Bool.and_self, if_neg (by simp : ¬ (false = true))]
  rw [hconv, hinv _ hok]
  simp only [ndcToWindow]
  rw [if_pos trivial]
  congr 1
  have h1 : (wx / p.proj.window_size.x * 2 - 1 + 1) / 2 *
      p.proj.window_size.x = wx := by
    field_simp
    ring
  have h2 : (1 - (1 - wy / p.proj.window_size.y * 2)) / 2 *
      p.proj.window_size.y = wy := by
    field_simp
    ring
  simp only [Vec2.mk.injEq]
  exact ⟨h1, h2⟩

/-- C5 witness: on the concrete invertible 800x600 projection, unprojecting
the window center (400, 300) and projecting back returns (400, 300). -/
theorem painter_project_unproject_round_trip_witness :
    painter_project base_painter Frame.view
      (painter_unproject base_painter Frame.view ⟨400, 300⟩).2 true false =
      some ⟨400, 300⟩ :=
  painter_project_unproject_round_trip base_painter ⟨400, 300⟩ rfl
    (by norm_num [base_painter, base_proj])
    (by norm_num [base_painter, base_proj])
    (fun v => rfl) (fun q h => rfl) rfl

/-- C10 witness: the window point (400, 300) lies inside the 800x600 window,
so the point test reports true while the radius-0 circle test reports
false. -/
theorem painter_is_2d_point_clipped_polarity_witness :
    painter_is_2d_point_clipped base_painter ⟨400, 300⟩ = true ∧
    painter_is_2d_circle_clipped base_painter ⟨400, 300⟩ 0 = false :=
  (painter_is_2d_point_clipped_polarity base_painter ⟨400, 300⟩ 0).2.2
    (by norm_num) (by norm_num [base_painter, base_proj])
    (by norm_num) (by norm_num [base_painter, base_proj])
